import Mathlib

/-
Verification development for the sysmon agent front end (src/main.rs).

The file shallowly embeds the configuration-loading and startup logic of
main.rs: the per-section plugin construction (load_section, load_instance),
the per-file loader (load_config), the multi-file loader (load_configs),
the startup driver (run) and the top-level error reporting (main).

External collaborators that live in the sysmon library crate (the plugin-key
parser, the registry construction, the logger, the getopts option parser and
the toml text parser) are modelled as explicit inputs or as small
definitions marked as modelled from the spec.  Observable effects of run
(usage printing, per-file load attempts, per-section attempts, plugin setup
calls, scheduling of the two loops, log messages, waiting) are recorded in
an event trace so that ordering and absence claims can be stated.
-/

namespace Sysmon

/-- A parsed plugin identity: category (kind) and variant name (type). -/
structure PluginKey where
  plugin_kind : String
  plugin_type : String
deriving DecidableEq, Repr

/-- A fragment of a toml value tree: only the shapes the loader inspects
(strings and tables) need structure; everything else is opaque. -/
inductive Toml where
  | str : String → Toml
  | int : Int → Toml
  | boolean : Bool → Toml
  | table : List (String × Toml) → Toml

/-- Lookup of a key in a toml table, as toml Table get does. -/
def tomlGet (kvs : List (String × Toml)) (k : String) : Option Toml :=
  (kvs.find? (fun kv => kv.1 == k)).map (fun kv => kv.2)

/-- toml decode into a Table: succeeds exactly on table values. -/
def decodeTable : Toml → Option (List (String × Toml))
  | .table kvs => some kvs
  | _ => none

/-- toml decode into a String: succeeds exactly on string values. -/
def decodeString : Toml → Option String
  | .str s => some s
  | _ => none

/-- The error kinds of the error chain used by main.rs. -/
inductive ErrorKind where
  | message : String → ErrorKind
  | missingPlugin : PluginKey → ErrorKind
  | tomlDecode : ErrorKind
  | tomlParse : List String → ErrorKind
  | configSection : String → ErrorKind
  | config : String → ErrorKind
  | ioError : String → ErrorKind
deriving DecidableEq, Repr

/-- An error-chain error: the current kind, the chain of underlying cause
kinds (outermost first) and an optional backtrace captured at creation. -/
structure ChainError where
  kind : ErrorKind
  causes : List ErrorKind
  backtrace : Option String
deriving DecidableEq, Repr

/-- A fresh error with no causes, as From of an ErrorKind builds it. -/
def ChainError.new (k : ErrorKind) : ChainError :=
  { kind := k, causes := [], backtrace := none }

/-- chain_err: wrap an existing error with a new context kind; the old
error (its kind followed by its own causes) becomes the cause chain. -/
def chain_err (k : ErrorKind) (e : ChainError) : ChainError :=
  { kind := k, causes := e.kind :: e.causes, backtrace := e.backtrace }

deriving instance DecidableEq for Except

/-- A constructed (pre-bind) plugin.  The trait object only matters to
main.rs through its identity and the outcome of its setup (bind) call, so
those are the data carried here. -/
structure Plugin where
  id : String
  setupResult : Except ChainError Unit
deriving DecidableEq, Repr

/-- A registry entry: a constructor from the parsed key and the raw
configuration section to a plugin or a failure. -/
def Entry : Type := PluginKey → Toml → Except ChainError Plugin

/-- The plugin registry: a read-only mapping from (kind, type) pairs to
constructors, as built once by load_plugins. -/
def PluginRegistry : Type := List ((String × String) × Entry)

/-- Map get on the registry: the first entry whose key matches. -/
def registryGet (plugins : PluginRegistry) (key : String × String) :
    Option Entry :=
  (plugins.find? (fun e => e.1 == key)).map (fun e => e.2)

/-- Split a character list at the first colon, when one is present. -/
def splitColon : List Char → Option (List Char × List Char)
  | [] => none
  | c :: rest =>
    if c = ':' then some ([], rest)
    else
      match splitColon rest with
      | some (a, b) => some (c :: a, b)
      | none => none

/-- Modelled from the spec: parse_plugin_key lives in sysmon::parsers,
outside src/.  The spec describes it as a black box parsing a kind:type
token (for example sensor:cpu) into a structured PluginKey, or returning a
parse failure. -/
def parse_plugin_key (input : String) : Except ChainError PluginKey :=
  match splitColon input.toList with
  | some (kind, ty) =>
    if kind = [] ∨ ty = [] then
      .error (ChainError.new (.message ("invalid plugin key: " ++ input)))
    else
      .ok { plugin_kind := String.mk kind, plugin_type := String.mk ty }
  | none => .error (ChainError.new (.message ("invalid plugin key: " ++ input)))

/-- load_instance from main.rs: parse the type token into a key, look the
key up in the registry (a missing entry becomes MissingPlugin carrying the
key) and invoke the constructor on the section. -/
def load_instance (plugins : PluginRegistry) (plugin_type : String)
    (sec : Toml) : Except ChainError Plugin :=
  match parse_plugin_key plugin_type with
  | .error e => .error e
  | .ok plugin_key =>
    match registryGet plugins (plugin_key.plugin_kind, plugin_key.plugin_type) with
    | none => .error (ChainError.new (.missingPlugin plugin_key))
    | some entry => entry plugin_key sec

/-- load_section from main.rs: decode the section into a table, fetch and
decode its type field into a string (any failure in that chain becomes
TomlDecode), then defer to load_instance. -/
def load_section (plugins : PluginRegistry) (sec : Toml) :
    Except ChainError Plugin :=
  match (decodeTable sec).bind
      (fun value => (tomlGet value "type").bind decodeString) with
  | none => .error (ChainError.new .tomlDecode)
  | some plugin_type => load_instance plugins plugin_type sec

/-- The two periodic tasks started by run. -/
inductive Task where
  | poller : Task
  | updater : Task
deriving DecidableEq, Repr

/-- Observable events of the startup flow, in order of occurrence. -/
inductive Event where
  | printUsage : List (String × String) → Event
  | loadingFile : String → Event
  | sectionAttempt : String → Event
  | setupPlugin : String → Event
  | scheduleLoop : Task → Nat → Event
  | logMsg : String → Event
  | waitLoops : Event
deriving DecidableEq, Repr

/-- The external world handed to the loaders: file contents by path and
the toml text parser (both external collaborators of main.rs).  Reading a
file yields its content or an io error message; parsing yields the ordered
section list or the parser error list. -/
structure World where
  readFile : String → Except String String
  parseToml : String → Except (List String) (List (String × Toml))

/-- The section loop of load_config: load each section in order, wrapping
a failure with that section name as ConfigSection context and stopping
there; record each attempted section in the trace. -/
def load_sections (plugins : PluginRegistry) :
    List (String × Toml) → List Event × Except ChainError (List Plugin)
  | [] => ([], .ok [])
  | (section_key, sec) :: rest =>
    match load_section plugins sec with
    | .error e =>
      ([Event.sectionAttempt section_key],
       .error (chain_err (.configSection section_key) e))
    | .ok p =>
      let rr := load_sections plugins rest
      (Event.sectionAttempt section_key :: rr.1,
       rr.2.map (fun more => p :: more))

/-- load_config from main.rs: open and read the file (io failure becomes
an io error), parse the text (failure carries the parser error list as
TomlParse), then load every section in order. -/
def load_config (world : World) (path : String) (plugins : PluginRegistry) :
    List Event × Except ChainError (List Plugin) :=
  match world.readFile path with
  | .error msg => ([], .error (ChainError.new (.ioError msg)))
  | .ok content =>
    match world.parseToml content with
    | .error errors => ([], .error (ChainError.new (.tomlParse errors)))
    | .ok config => load_sections plugins config

/-- load_configs from main.rs: for each configured file, log the attempt,
load the file and wrap any failure with the file path as Config context;
the question mark operator propagates that failure immediately. -/
def load_configs (world : World) (configs : List String)
    (plugins : PluginRegistry) :
    List Event × Except ChainError (List Plugin) :=
  match configs with
  | [] => ([], .ok [])
  | config :: rest =>
    let r := load_config world config plugins
    match r.2 with
    | .error e =>
      (Event.loadingFile config :: r.1,
       .error (chain_err (.config config) e))
    | .ok loaded =>
      let rr := load_configs world rest plugins
      (Event.loadingFile config :: (r.1 ++ rr.1),
       rr.2.map (fun more => loaded ++ more))

/-- The parsed command-line options relevant to run. -/
structure Matches where
  help : Bool
  debug : Bool
  config : List String
deriving DecidableEq, Repr

/-- print_usage from main.rs, abstracted to the event it emits: the usage
text together with the list of registered plugin keys it enumerates. -/
def print_usage (plugins : PluginRegistry) : Event :=
  Event.printUsage (plugins.map (fun e => e.1))

/-- The setup loop of run: bind each loaded plugin in order against the
framework; the question mark operator aborts at the first failure. -/
def setup_all : List Plugin → List Event × Except ChainError Unit
  | [] => ([], .ok ())
  | p :: rest =>
    match p.setupResult with
    | .error e => ([Event.setupPlugin p.id], .error e)
    | .ok _ =>
      let rr := setup_all rest
      (Event.setupPlugin p.id :: rr.1, rr.2)

/-- run from main.rs as a trace-producing function.  The getopts parse
result and the logger initialisation outcome are inputs (external
collaborators).  On a parse failure: print usage and fail.  On the help
flag: print usage and succeed.  Otherwise initialise logging, load all
configured files, bind every loaded plugin, schedule the Poller with
period 5 and the Updater with period 1, log Started! then Shutting down!,
and wait on the joined loops. -/
def run (plugins : PluginRegistry) (parse_result : Except String Matches)
    (logger_init : Except ChainError Unit) (world : World) :
    List Event × Except ChainError Unit :=
  match parse_result with
  | .error f => ([print_usage plugins], .error (ChainError.new (.message f)))
  | .ok m =>
    if m.help then
      ([print_usage plugins], .ok ())
    else
      match logger_init with
      | .error e => ([], .error e)
      | .ok _ =>
        let lr := load_configs world m.config plugins
        match lr.2 with
        | .error e => (lr.1, .error e)
        | .ok loaded =>
          let sr := setup_all loaded
          match sr.2 with
          | .error e => (lr.1 ++ sr.1, .error e)
          | .ok _ =>
            (lr.1 ++ sr.1 ++
              [Event.scheduleLoop Task.poller 5,
               Event.scheduleLoop Task.updater 1,
               Event.logMsg "Started!",
               Event.logMsg "Shutting down!",
               Event.waitLoops],
             .ok ())

/-- Modelled from the spec: the Display rendering of each error kind lives
in sysmon::errors, outside src/; the spec only requires a human-readable
description, so a simple rendering is used.  Claims never depend on the
exact text. -/
def describe : ErrorKind → String
  | .message s => s
  | .missingPlugin k =>
    "missing plugin: " ++ k.plugin_kind ++ ":" ++ k.plugin_type
  | .tomlDecode => "toml decode error"
  | .tomlParse _ => "toml parse error"
  | .configSection s => "in section: " ++ s
  | .config p => "in config: " ++ p
  | .ioError msg => msg

/-- main from main.rs, as a function from the outcome of run to the lines
printed to standard output and the process exit status.  On an error it
prints the error, then every underlying cause prefixed with caused by:,
then the backtrace when one is available, and exits 1; on success it
prints nothing further and exits 0. -/
def main_output (r : List Event × Except ChainError Unit) :
    List String × Nat :=
  match r.2 with
  | .error e =>
    (describe e.kind ::
      (e.causes.map (fun c => "  caused by: " ++ describe c) ++
        (match e.backtrace with
         | some b => ["  backtrace: " ++ b]
         | none => [])),
     1)
  | .ok _ => ([], 0)

/-! Helper lemmas about the loaders and the startup driver. -/

theorem load_sections_err (plugins : PluginRegistry) (pre : List (String × Toml))
    (k : String) (s : Toml) (post : List (String × Toml)) (e : ChainError)
    (hpre : ∀ x ∈ pre, ∃ p, load_section plugins x.2 = .ok p)
    (hs : load_section plugins s = .error e) :
    load_sections plugins (pre ++ (k, s) :: post) =
      (pre.map (fun x => Event.sectionAttempt x.1) ++ [Event.sectionAttempt k],
       .error (chain_err (.configSection k) e)) := by
  induction pre with
  | nil => simp [load_sections, hs]
  | cons x rest ih =>
    obtain ⟨xk, xv⟩ := x
    obtain ⟨p, hp⟩ := hpre (xk, xv) (List.mem_cons_self _ _)
    have ih2 := ih (fun y hy => hpre y (List.mem_cons_of_mem _ hy))
    simp [load_sections, hp, ih2, Except.map]

theorem load_configs_err (world : World) (plugins : PluginRegistry)
    (pre : List String) (p : String) (post : List String) (e : ChainError)
    (hpre : ∀ q ∈ pre, ∃ l, (load_config world q plugins).2 = .ok l)
    (hp : (load_config world p plugins).2 = .error e) :
    (load_configs world (pre ++ p :: post) plugins).2 =
      .error (chain_err (.config p) e) ∧
    (load_configs world (pre ++ p :: post) plugins).1 =
      (load_configs world (pre ++ [p]) plugins).1 := by
  induction pre with
  | nil =>
    refine ⟨?_, ?_⟩ <;> simp [load_configs, hp]
  | cons q rest ih =>
    obtain ⟨l, hl⟩ := hpre q (List.mem_cons_self _ _)
    have ih2 := ih (fun y hy => hpre y (List.mem_cons_of_mem _ hy))
    refine ⟨?_, ?_⟩
    · simp [load_configs, hl, ih2.1, Except.map]
    · simp [load_configs, hl, ih2.1, ih2.2, Except.map]

theorem load_sections_events (plugins : PluginRegistry)
    (cfg : List (String × Toml)) :
    ∀ ev ∈ (load_sections plugins cfg).1, ∃ k, ev = Event.sectionAttempt k := by
  induction cfg with
  | nil => simp [load_sections]
  | cons x rest ih =>
    obtain ⟨xk, xv⟩ := x
    intro ev hev
    cases hls : load_section plugins xv with
    | error e =>
      simp [load_sections, hls] at hev
      exact ⟨xk, hev⟩
    | ok p =>
      simp [load_sections, hls] at hev
      rcases hev with rfl | hev
      · exact ⟨xk, rfl⟩
      · exact ih ev hev

theorem load_config_events (world : World) (path : String)
    (plugins : PluginRegistry) :
    ∀ ev ∈ (load_config world path plugins).1, ∃ k, ev = Event.sectionAttempt k := by
  intro ev hev
  cases hr : world.readFile path with
  | error msg => simp [load_config, hr] at hev
  | ok content =>
    cases hp : world.parseToml content with
    | error errs => simp [load_config, hr, hp] at hev
    | ok cfg =>
      simp only [load_config, hr, hp] at hev
      exact load_sections_events plugins cfg ev hev

theorem load_configs_events (world : World) (cfgs : List String)
    (plugins : PluginRegistry) :
    ∀ ev ∈ (load_configs world cfgs plugins).1,
      (∃ p, ev = Event.loadingFile p) ∨ (∃ k, ev = Event.sectionAttempt k) := by
  induction cfgs with
  | nil => simp [load_configs]
  | cons q rest ih =>
    intro ev hev
    cases hq : (load_config world q plugins).2 with
    | error e =>
      simp [load_configs, hq] at hev
      rcases hev with rfl | hev
      · exact Or.inl ⟨q, rfl⟩
      · exact Or.inr (load_config_events world q plugins ev hev)
    | ok l =>
      simp [load_configs, hq] at hev
      rcases hev with rfl | hev | hev
      · exact Or.inl ⟨q, rfl⟩
      · exact Or.inr (load_config_events world q plugins ev hev)
      · exact ih ev hev

theorem setup_all_events (l : List Plugin) :
    ∀ ev ∈ (setup_all l).1, ∃ i, ev = Event.setupPlugin i := by
  induction l with
  | nil => simp [setup_all]
  | cons p rest ih =>
    intro ev hev
    cases hp : p.setupResult with
    | error e =>
      simp [setup_all, hp] at hev
      exact ⟨p.id, hev⟩
    | ok u =>
      simp [setup_all, hp] at hev
      rcases hev with rfl | hev
      · exact ⟨p.id, rfl⟩
      · exact ih ev hev

theorem setup_all_ok (l : List Plugin) (h : ∀ p ∈ l, p.setupResult = .ok ()) :
    setup_all l = (l.map (fun p => Event.setupPlugin p.id), .ok ()) := by
  induction l with
  | nil => simp [setup_all]
  | cons p rest ih =>
    have hp := h p (List.mem_cons_self _ _)
    have ih2 := ih (fun q hq => h q (List.mem_cons_of_mem _ hq))
    simp [setup_all, hp, ih2]

theorem run_ok_shape (plugins : PluginRegistry) (world : World) (m : Matches)
    (loaded : List Plugin)
    (hhelp : m.help = false)
    (hload : (load_configs world m.config plugins).2 = .ok loaded)
    (hsetup : ∀ p ∈ loaded, p.setupResult = .ok ()) :
    run plugins (.ok m) (.ok ()) world =
      ((load_configs world m.config plugins).1 ++
        (loaded.map (fun p => Event.setupPlugin p.id) ++
          [Event.scheduleLoop Task.poller 5, Event.scheduleLoop Task.updater 1,
           Event.logMsg "Started!", Event.logMsg "Shutting down!",
           Event.waitLoops]),
       .ok ()) := by
  simp [run, hhelp, hload, setup_all_ok loaded hsetup]

theorem run_error_no_sched (plugins : PluginRegistry)
    (pr : Except String Matches) (logger : Except ChainError Unit)
    (world : World) (e : ChainError)
    (h : (run plugins pr logger world).2 = .error e) :
    ∀ t per, Event.scheduleLoop t per ∉ (run plugins pr logger world).1 := by
  intro t per hmem
  cases pr with
  | error f =>
    simp [run, print_usage] at hmem
  | ok m =>
    cases hm : m.help with
    | true => simp [run, hm] at h
    | false =>
      cases logger with
      | error le => simp [run, hm] at hmem
      | ok u =>
        cases hlr : (load_configs world m.config plugins).2 with
        | error e2 =>
          simp [run, hm, hlr] at hmem
          rcases load_configs_events world m.config plugins _ hmem with
            ⟨p, hp⟩ | ⟨k, hk⟩
          · simp at hp
          · simp at hk
        | ok loaded =>
          cases hsr : (setup_all loaded).2 with
          | error e3 =>
            simp [run, hm, hlr, hsr] at hmem
            rcases hmem with hmem | hmem
            · rcases load_configs_events world m.config plugins _ hmem with
                ⟨p, hp⟩ | ⟨k, hk⟩
              · simp at hp
              · simp at hk
            · obtain ⟨i, hi⟩ := setup_all_events loaded _ hmem
              simp at hi
          | ok uu =>
            simp [run, hm, hlr, hsr] at h

/-! Concrete scenarios used by witnesses and counterexamples. -/

/-- A world with two configuration files: a.toml has invalid toml text and
b.toml is valid but empty. -/
def worldA : World where
  readFile := fun p =>
    if p == "a.toml" then .ok "bad content"
    else if p == "b.toml" then .ok "" else .error ("no such file: " ++ p)
  parseToml := fun c =>
    if c == "bad content" then .error ["unexpected token at line 1"]
    else .ok []

/-- A world with one configuration file whose first section lacks a type
field and whose second section is well formed. -/
def worldB : World where
  readFile := fun p =>
    if p == "c.toml" then .ok "cfg" else .error "no such file"
  parseToml := fun c =>
    if c == "cfg" then
      .ok [("a", Toml.table []),
           ("b", Toml.table [("type", Toml.str "sensor:cpu")])]
    else .error ["bad"]

/-- A plugin whose bind succeeds. -/
def okPlugin : Plugin := { id := "sensor:cpu", setupResult := .ok () }

/-- A constructor always producing okPlugin. -/
def cpuEntry : Entry := fun _ _ => .ok okPlugin

/-- A registry holding the single sensor:cpu entry. -/
def regC : PluginRegistry := [(("sensor", "cpu"), cpuEntry)]

/-- A world with one well-formed configuration file declaring one
sensor:cpu section. -/
def worldC : World where
  readFile := fun p =>
    if p == "c.toml" then .ok "cfg" else .error "no such file"
  parseToml := fun c =>
    if c == "cfg" then
      .ok [("a", Toml.table [("type", Toml.str "sensor:cpu")])]
    else .error ["bad"]

/-- Parsed options selecting the single configuration file c.toml. -/
def mC : Matches := { help := false, debug := false, config := ["c.toml"] }

/-- Parsed options with the help flag set. -/
def mH : Matches := { help := true, debug := false, config := ["c.toml"] }

/-! Claim theorems. -/

/-- Claim C1, counterexample: with two configuration files where the first
fails to parse, load_configs propagates the first failure at once (wrapped
with the file path) and never attempts the second file, refuting the claim
that each file is attempted as an independent unit. -/
theorem first_file_failure_skips_later_files :
    (load_configs worldA ["a.toml", "b.toml"] ([] : PluginRegistry)).2 =
      .error (chain_err (.config "a.toml")
        (ChainError.new (.tomlParse ["unexpected token at line 1"]))) ∧
    Event.loadingFile "b.toml" ∉
      (load_configs worldA ["a.toml", "b.toml"] ([] : PluginRegistry)).1 := by
  refine ⟨rfl, ?_⟩
  decide

/-- Claim C1, as amended: a failure while loading one file aborts
load_configs at that file; the failure is wrapped with that file's path as
file-level context and no later file in the list is attempted. -/
theorem load_configs_fail_fast_file_context (world : World)
    (plugins : PluginRegistry) (pre : List String) (p : String)
    (post : List String) (e : ChainError)
    (hpre : ∀ q ∈ pre, ∃ l, (load_config world q plugins).2 = .ok l)
    (hp : (load_config world p plugins).2 = .error e) :
    (load_configs world (pre ++ p :: post) plugins).2 =
      .error (chain_err (.config p) e) ∧
    (load_configs world (pre ++ p :: post) plugins).1 =
      (load_configs world (pre ++ [p]) plugins).1 :=
  load_configs_err world plugins pre p post e hpre hp

/-- Witness for the amended C1 at a concrete input. -/
theorem load_configs_fail_fast_file_context_witness :
    (load_configs worldA ["a.toml", "b.toml"] ([] : PluginRegistry)).2 =
      .error (chain_err (.config "a.toml")
        (ChainError.new (.tomlParse ["unexpected token at line 1"]))) ∧
    (load_configs worldA ["a.toml", "b.toml"] ([] : PluginRegistry)).1 =
      (load_configs worldA ["a.toml"] ([] : PluginRegistry)).1 := by
  have h := load_configs_fail_fast_file_context worldA ([] : PluginRegistry)
    [] "a.toml" ["b.toml"]
    (ChainError.new (.tomlParse ["unexpected token at line 1"]))
    (by simp) rfl
  exact h

/-- Claim C2: within one file, the first invalid section makes load_config
fail with a per-section context naming exactly that section, and no later
section of the file is attempted (so no plugin is constructed or bound from
a later section). -/
theorem load_config_section_fail_fast (world : World) (path : String)
    (plugins : PluginRegistry) (content : String)
    (pre : List (String × Toml)) (k : String) (s : Toml)
    (post : List (String × Toml)) (e : ChainError)
    (hread : world.readFile path = .ok content)
    (hparse : world.parseToml content = .ok (pre ++ (k, s) :: post))
    (hpre : ∀ x ∈ pre, ∃ p, load_section plugins x.2 = .ok p)
    (hs : load_section plugins s = .error e) :
    (load_config world path plugins).2 =
      .error (chain_err (.configSection k) e) ∧
    (load_config world path plugins).1 =
      pre.map (fun x => Event.sectionAttempt x.1) ++ [Event.sectionAttempt k] := by
  have hls := load_sections_err plugins pre k s post e hpre hs
  have h1 : load_config world path plugins =
      load_sections plugins (pre ++ (k, s) :: post) := by
    simp [load_config, hread, hparse]
  rw [h1, hls]
  exact ⟨rfl, rfl⟩

/-- Witness for C2 at a concrete input: the first of two sections lacks a
type field; the failure names section a and section b is not attempted. -/
theorem load_config_section_fail_fast_witness :
    (load_config worldB "c.toml" ([] : PluginRegistry)).2 =
      .error (chain_err (.configSection "a") (ChainError.new .tomlDecode)) ∧
    (load_config worldB "c.toml" ([] : PluginRegistry)).1 =
      [Event.sectionAttempt "a"] := by
  have h := load_config_section_fail_fast worldB "c.toml" ([] : PluginRegistry)
    "cfg" [] "a" (Toml.table [])
    [("b", Toml.table [("type", Toml.str "sensor:cpu")])]
    (ChainError.new .tomlDecode) rfl rfl (by simp) rfl
  exact h

/-- Claim C3: a parsed PluginKey with no matching registry entry makes
load_instance fail with MissingPlugin carrying exactly that key. -/
theorem load_instance_missing_plugin (plugins : PluginRegistry)
    (plugin_type : String) (sec : Toml) (pk : PluginKey)
    (hparse : parse_plugin_key plugin_type = .ok pk)
    (hmiss : registryGet plugins (pk.plugin_kind, pk.plugin_type) = none) :
    load_instance plugins plugin_type sec =
      .error (ChainError.new (.missingPlugin pk)) := by
  simp [load_instance, hparse, hmiss]

/-- Witness for C3: sensor:disk parses but is absent from the empty
registry, producing MissingPlugin with that key. -/
theorem load_instance_missing_plugin_witness :
    parse_plugin_key "sensor:disk" =
      .ok { plugin_kind := "sensor", plugin_type := "disk" } ∧
    load_instance ([] : PluginRegistry) "sensor:disk" (Toml.table []) =
      .error (ChainError.new
        (.missingPlugin { plugin_kind := "sensor", plugin_type := "disk" })) :=
  ⟨rfl,
   load_instance_missing_plugin ([] : PluginRegistry) "sensor:disk"
     (Toml.table []) { plugin_kind := "sensor", plugin_type := "disk" } rfl rfl⟩

/-- Claim C4: a section value that is not a table, or lacks a type field,
or whose type field is not a string, makes load_section return the
TomlDecode error (the embedding is a total function, so no panic is
possible). -/
theorem load_section_missing_type_decode_error (plugins : PluginRegistry)
    (sec : Toml)
    (h : (∀ kvs, sec ≠ Toml.table kvs) ∨
         (∃ kvs, sec = Toml.table kvs ∧ tomlGet kvs "type" = none) ∨
         (∃ kvs v, sec = Toml.table kvs ∧ tomlGet kvs "type" = some v ∧
           ∀ s, v ≠ Toml.str s)) :
    load_section plugins sec = .error (ChainError.new .tomlDecode) := by
  rcases h with h | ⟨kvs, rfl, hn⟩ | ⟨kvs, v, rfl, hv, hs⟩
  · cases sec with
    | table kvs => exact absurd rfl (h kvs)
    | str s => rfl
    | int n => rfl
    | boolean b => rfl
  · simp [load_section, decodeTable, hn]
  · cases v with
    | str s => exact absurd rfl (hs s)
    | int n => simp [load_section, decodeTable, hv, decodeString]
    | boolean b => simp [load_section, decodeTable, hv, decodeString]
    | table t => simp [load_section, decodeTable, hv, decodeString]

/-- Witness for C4: an empty table section (no type field) yields the
TomlDecode error. -/
theorem load_section_missing_type_decode_error_witness :
    load_section ([] : PluginRegistry) (Toml.table []) =
      .error (ChainError.new .tomlDecode) :=
  load_section_missing_type_decode_error ([] : PluginRegistry) (Toml.table [])
    (Or.inr (Or.inl ⟨[], rfl, rfl⟩))

/-- Claim C5: when run returns an error, main prints the error followed by
every underlying cause prefixed with caused by: and the backtrace when one
is available, and exits with status 1; when run succeeds the process exits
with status 0. -/
theorem main_prints_cause_chain_and_exit (tr : List Event)
    (r : Except ChainError Unit) :
    (∀ e, r = .error e →
      main_output (tr, r) =
        (describe e.kind ::
          (e.causes.map (fun c => "  caused by: " ++ describe c) ++
            (match e.backtrace with
             | some b => ["  backtrace: " ++ b]
             | none => [])),
         1)) ∧
    (r = .ok () → main_output (tr, r) = ([], 0)) := by
  constructor
  · intro e he
    subst he
    rfl
  · intro he
    subst he
    rfl

/-- Witness for C5 at a concrete error with one cause, and at success. -/
theorem main_prints_cause_chain_and_exit_witness :
    main_output ([], .error
      { kind := .config "a.toml", causes := [.tomlDecode], backtrace := none }) =
      (["in config: a.toml", "  caused by: toml decode error"], 1) ∧
    main_output ([], .ok ()) = ([], 0) := by
  refine ⟨?_, ?_⟩
  · exact (main_prints_cause_chain_and_exit [] _).1 _ rfl
  · exact (main_prints_cause_chain_and_exit [] _).2 rfl

/-- Claim C6: when the configuration text fails to parse, load_config
fails with TomlParse carrying the parser error list, and load_configs
wraps that failure with the file path as per-file context. -/
theorem load_config_parse_error_contexts (world : World)
    (plugins : PluginRegistry) (path content : String)
    (errors : List String) (pre post : List String)
    (hread : world.readFile path = .ok content)
    (hparse : world.parseToml content = .error errors)
    (hpre : ∀ q ∈ pre, ∃ l, (load_config world q plugins).2 = .ok l) :
    (load_config world path plugins).2 =
      .error (ChainError.new (.tomlParse errors)) ∧
    (load_configs world (pre ++ path :: post) plugins).2 =
      .error (chain_err (.config path) (ChainError.new (.tomlParse errors))) := by
  have h1 : (load_config world path plugins).2 =
      .error (ChainError.new (.tomlParse errors)) := by
    simp [load_config, hread, hparse]
  exact ⟨h1, (load_configs_err world plugins pre path post _ hpre h1).1⟩

/-- Witness for C6 at a concrete input. -/
theorem load_config_parse_error_contexts_witness :
    (load_config worldA "a.toml" ([] : PluginRegistry)).2 =
      .error (ChainError.new (.tomlParse ["unexpected token at line 1"])) ∧
    (load_configs worldA ["a.toml"] ([] : PluginRegistry)).2 =
      .error (chain_err (.config "a.toml")
        (ChainError.new (.tomlParse ["unexpected token at line 1"]))) := by
  have h := load_config_parse_error_contexts worldA ([] : PluginRegistry)
    "a.toml" "bad content" ["unexpected token at line 1"] [] [] rfl rfl
    (by simp)
  exact h

/-- Claim C7: on a successful startup every loaded plugin is bound exactly
once (one setupPlugin event per plugin, in order) and all binds happen
before either loop is scheduled; and whenever run fails, no scheduling
event ever appears in the trace. -/
theorem run_binds_once_before_scheduling (plugins : PluginRegistry)
    (pr : Except String Matches) (logger : Except ChainError Unit)
    (world : World) :
    (∀ m loaded, pr = .ok m → m.help = false → logger = .ok () →
      (load_configs world m.config plugins).2 = .ok loaded →
      (∀ p ∈ loaded, p.setupResult = .ok ()) →
      run plugins pr logger world =
        ((load_configs world m.config plugins).1 ++
          (loaded.map (fun p => Event.setupPlugin p.id) ++
            [Event.scheduleLoop Task.poller 5, Event.scheduleLoop Task.updater 1,
             Event.logMsg "Started!", Event.logMsg "Shutting down!",
             Event.waitLoops]),
         .ok ())) ∧
    (∀ e, (run plugins pr logger world).2 = .error e →
      ∀ t per, Event.scheduleLoop t per ∉ (run plugins pr logger world).1) := by
  constructor
  · intro m loaded hm hh hl hload hsetup
    subst hm
    subst hl
    exact run_ok_shape plugins world m loaded hh hload hsetup
  · intro e he t per
    exact run_error_no_sched plugins pr logger world e he t per

/-- Witness for C7 at a concrete successful startup. -/
theorem run_binds_once_before_scheduling_witness :
    run regC (.ok mC) (.ok ()) worldC =
      ([Event.loadingFile "c.toml", Event.sectionAttempt "a",
        Event.setupPlugin "sensor:cpu",
        Event.scheduleLoop Task.poller 5, Event.scheduleLoop Task.updater 1,
        Event.logMsg "Started!", Event.logMsg "Shutting down!",
        Event.waitLoops],
       .ok ()) := by
  have h := (run_binds_once_before_scheduling regC (.ok mC) (.ok ()) worldC).1
    mC [okPlugin] rfl rfl rfl rfl
    (by
      intro p hp
      simp at hp
      subst hp
      rfl)
  exact h

/-- Claim C8: after successful startup the Poller loop is scheduled with
period 5 and the Updater loop with period 1, and no other loop or period is
ever scheduled. -/
theorem run_schedules_fixed_periods (plugins : PluginRegistry)
    (world : World) (m : Matches) (loaded : List Plugin)
    (hhelp : m.help = false)
    (hload : (load_configs world m.config plugins).2 = .ok loaded)
    (hsetup : ∀ p ∈ loaded, p.setupResult = .ok ()) :
    Event.scheduleLoop Task.poller 5 ∈ (run plugins (.ok m) (.ok ()) world).1 ∧
    Event.scheduleLoop Task.updater 1 ∈ (run plugins (.ok m) (.ok ()) world).1 ∧
    ∀ t per, Event.scheduleLoop t per ∈ (run plugins (.ok m) (.ok ()) world).1 →
      (t = Task.poller ∧ per = 5) ∨ (t = Task.updater ∧ per = 1) := by
  have hsh := run_ok_shape plugins world m loaded hhelp hload hsetup
  have htr := congrArg Prod.fst hsh
  refine ⟨?_, ?_, ?_⟩
  · rw [htr]; simp
  · rw [htr]; simp
  · intro t per hmem
    rw [htr] at hmem
    rcases List.mem_append.mp hmem with h1 | h2
    · rcases load_configs_events world m.config plugins _ h1 with ⟨p, hp⟩ | ⟨k, hk⟩
      · simp at hp
      · simp at hk
    · rcases List.mem_append.mp h2 with h3 | h4
      · obtain ⟨q, hq, hqe⟩ := List.mem_map.mp h3
        simp at hqe
      · simp at h4
        tauto

/-- Witness for C8 at a concrete successful startup. -/
theorem run_schedules_fixed_periods_witness :
    Event.scheduleLoop Task.poller 5 ∈ (run regC (.ok mC) (.ok ()) worldC).1 ∧
    Event.scheduleLoop Task.updater 1 ∈ (run regC (.ok mC) (.ok ()) worldC).1 := by
  have h := run_schedules_fixed_periods regC worldC mC [okPlugin] rfl rfl
    (by
      intro p hp
      simp at hp
      subst hp
      rfl)
  exact ⟨h.1, h.2.1⟩

/-- Claim C9: in the success trace of run, the Shutting down! log message
comes immediately after Started! and strictly before waiting on the joined
loops, which is the last event. -/
theorem run_logs_shutdown_before_wait (plugins : PluginRegistry)
    (world : World) (m : Matches) (loaded : List Plugin)
    (hhelp : m.help = false)
    (hload : (load_configs world m.config plugins).2 = .ok loaded)
    (hsetup : ∀ p ∈ loaded, p.setupResult = .ok ()) :
    ∃ tr0, (run plugins (.ok m) (.ok ()) world).1 =
      tr0 ++ [Event.logMsg "Started!", Event.logMsg "Shutting down!",
              Event.waitLoops] := by
  have hsh := run_ok_shape plugins world m loaded hhelp hload hsetup
  have htr := congrArg Prod.fst hsh
  refine ⟨(load_configs world m.config plugins).1 ++
    (loaded.map (fun p => Event.setupPlugin p.id) ++
      [Event.scheduleLoop Task.poller 5, Event.scheduleLoop Task.updater 1]), ?_⟩
  rw [htr]
  simp

/-- Witness for C9 at a concrete successful startup. -/
theorem run_logs_shutdown_before_wait_witness :
    ∃ tr0, (run regC (.ok mC) (.ok ()) worldC).1 =
      tr0 ++ [Event.logMsg "Started!", Event.logMsg "Shutting down!",
              Event.waitLoops] :=
  run_logs_shutdown_before_wait regC worldC mC [okPlugin] rfl rfl
    (by
      intro p hp
      simp at hp
      subst hp
      rfl)

/-- Claim C10: with the help flag parsed, run only prints usage (with the
registered plugin list), loads no file, binds nothing, schedules nothing,
returns success, and the process exits with status 0. -/
theorem run_help_short_circuits (plugins : PluginRegistry)
    (pr : Except String Matches) (logger : Except ChainError Unit)
    (world : World) (m : Matches)
    (hm : pr = .ok m) (hh : m.help = true) :
    run plugins pr logger world =
      ([Event.printUsage (plugins.map (fun e => e.1))], .ok ()) ∧
    main_output (run plugins pr logger world) = ([], 0) := by
  subst hm
  have h1 : run plugins (.ok m) logger world = ([print_usage plugins], .ok ()) := by
    simp [run, hh]
  rw [h1]
  exact ⟨by simp [print_usage], rfl⟩

/-- Witness for C10 at a concrete input. -/
theorem run_help_short_circuits_witness :
    run regC (.ok mH) (.ok ()) worldC =
      ([Event.printUsage [("sensor", "cpu")]], .ok ()) ∧
    main_output (run regC (.ok mH) (.ok ()) worldC) = ([], 0) := by
  have h := run_help_short_circuits regC (.ok mH) (.ok ()) worldC mH rfl rfl
  exact h

end Sysmon
